import Mathlib

/-!
Verification development for the Sentinel motion-capture core.

Shallow embedding of the relevant code:
- `src/sentinel/constants.py` (timing and threshold constants),
- `src/sentinel/detection/motion_detector.py` (`MotionDetector`:
  `start_recording`, `stop_recording`, `write_frame`,
  `check_recording_status`, `stop_camera`, `detect_motion`, `cleanup`),
- `src/sentinel/audio/alert_system.py` (`AudioAlertSystem.trigger_alert`).

Time values are modelled as rationals.  Effects of the external world
(the `cv2.VideoWriter` open/write/release calls succeeding or raising, the
camera read returning a frame, the TTS engine speaking without raising)
are passed in as explicit boolean oracles; an oracle value `false` means
the corresponding Python call raised and the surrounding `except` clause
ran.  The state records exactly the mutable attributes of the Python
objects that the control flow reads or writes.
-/

namespace Sentinel

/-- `MIN_CONTOUR_AREA` from constants.py line 15. -/
def MIN_CONTOUR_AREA : ℚ := 700

/-- `MOTION_TIMEOUT` from constants.py line 20 (seconds between alerts). -/
def MOTION_TIMEOUT : ℚ := 10

/-- `RECORDING_DURATION` from constants.py line 36 (seconds per clip). -/
def RECORDING_DURATION : ℚ := 10

/-- `MOTION_COOLDOWN` from constants.py line 39 (seconds between sessions). -/
def MOTION_COOLDOWN : ℚ := 2

/-- The mutable attributes of a `MotionDetector` instance that the embedded
methods read or write.  `has_cap` is `self.cap is not None`; `cap_opened`
is `self.cap.isOpened()`; `has_writer` is `self.video_writer is not None`. -/
structure DetectorState where
  feed_active : Bool
  has_cap : Bool
  cap_opened : Bool
  recording : Bool
  recording_enabled : Bool
  has_writer : Bool
  recording_start_time : ℚ
  last_motion_time : ℚ
  frames_recorded : ℕ
  motion_cooldown : ℚ
  deriving Repr, DecidableEq

/-- The state `MotionDetector.__init__` leaves the object in (motion
detection attributes only; the camera is not yet started). -/
def initState : DetectorState :=
  { feed_active := false
    has_cap := false
    cap_opened := false
    recording := false
    recording_enabled := true
    has_writer := false
    recording_start_time := 0
    last_motion_time := 0
    frames_recorded := 0
    motion_cooldown := MOTION_COOLDOWN }

/-- `MotionDetector.start_recording` (motion_detector.py lines 54-87).
`now` is `time.time()`; `openOk` is whether building the `VideoWriter`
raised.  The returned path is modelled by the timestamp it is generated
from.  On failure the `except` clause sets `recording = False` and
`video_writer = None` and the method returns `None`. -/
def start_recording (s : DetectorState) (now : ℚ) (openOk : Bool) :
    DetectorState × Option ℚ :=
  if s.recording then (s, none)
  else if openOk then
    ({ s with has_writer := true
              recording := true
              recording_start_time := now
              frames_recorded := 0 }, some now)
  else
    ({ s with recording := false, has_writer := false }, none)

/-- `MotionDetector.stop_recording` (motion_detector.py lines 89-110).
`releaseOk` is whether `video_writer.release()` raised.  Both the normal
path and the `except` clause clear `video_writer` and `recording`; they
differ only in the returned value (`True` / `False`; the early-return
guard yields `None`). -/
def stop_recording (s : DetectorState) (releaseOk : Bool) :
    DetectorState × Option Bool :=
  if !s.recording || !s.has_writer then (s, none)
  else if releaseOk then
    ({ s with has_writer := false, recording := false }, some true)
  else
    ({ s with has_writer := false, recording := false }, some false)

/-- `MotionDetector.write_frame` (motion_detector.py lines 112-137).
`writeOk` is whether `video_writer.write(frame)` raised.  After a
successful write the frame counter is incremented and, if the elapsed
time since `recording_start_time` has reached `RECORDING_DURATION`, the
session is stopped from inside this method. -/
def write_frame (s : DetectorState) (now : ℚ) (writeOk releaseOk : Bool) :
    DetectorState × Bool :=
  if !s.recording || !s.has_writer then (s, false)
  else if writeOk then
    let s1 := { s with frames_recorded := s.frames_recorded + 1 }
    if now - s1.recording_start_time ≥ RECORDING_DURATION then
      ((stop_recording s1 releaseOk).1, true)
    else (s1, true)
  else (s, false)

/-- The per-tick recording status strings returned by
`check_recording_status`. -/
inductive RecStatus where
  | started
  | recording
  | stopped
  deriving Repr, DecidableEq

/-- `MotionDetector.check_recording_status` (motion_detector.py lines
139-184).  Returns the updated state together with the
`(recording_status, video_path)` pair of the Python method.  Control
flow, faithfully: the disabled branch stops any open session and returns
`"stopped"`; otherwise, if motion is detected while not recording and the
cooldown has elapsed, `last_motion_time` is set to `now` and a session
open is attempted, returning `"started"` with the path only when the open
succeeded; otherwise, if a session is open, one frame is written (which
may internally close the session on duration expiry), `last_motion_time`
is refreshed on motion, and `"recording"` is returned. -/
def check_recording_status (s : DetectorState) (motion : Bool) (now : ℚ)
    (openOk writeOk releaseOk : Bool) :
    DetectorState × Option RecStatus × Option ℚ :=
  if !s.recording_enabled && s.recording then
    ((stop_recording s releaseOk).1, some RecStatus.stopped, none)
  else if !s.recording_enabled then
    (s, none, none)
  else
    let startResult :=
      if motion && !s.recording then
        if now - s.last_motion_time ≥ s.motion_cooldown then
          start_recording { s with last_motion_time := now } now openOk
        else (s, none)
      else (s, none)
    match startResult with
    | (s1, some p) => (s1, some RecStatus.started, some p)
    | (s1, none) =>
      if s1.recording then
        let s2 := (write_frame s1 now writeOk releaseOk).1
        let s3 := if motion then { s2 with last_motion_time := now } else s2
        (s3, some RecStatus.recording, none)
      else (s1, none, none)

/-- `MotionDetector.stop_camera` (motion_detector.py lines 214-219):
clears `feed_active` and releases the capture handle if present. -/
def stop_camera (s : DetectorState) : DetectorState :=
  let s1 := { s with feed_active := false }
  if s1.has_cap then { s1 with has_cap := false, cap_opened := false } else s1

/-- `MotionDetector.cleanup` as the class effectively defines it: the
class body contains two `cleanup` definitions, and the later one
(motion_detector.py lines 342-344) shadows the earlier one (lines
307-311), so the method in effect only calls `stop_camera` and never
touches the recording state. -/
def cleanup (s : DetectorState) : DetectorState :=
  stop_camera s

/-- The shadowed first `cleanup` definition (motion_detector.py lines
307-311): stop any open recording session, then stop the camera.  Not
reachable at runtime; kept to state the divergence precisely. -/
def cleanup_shadowed (s : DetectorState) (releaseOk : Bool) : DetectorState :=
  let s1 := if s.recording then (stop_recording s releaseOk).1 else s
  stop_camera s1

/-- One connected component found by `cv2.findContours`, abstracted to
what the filtering loop reads: its `cv2.contourArea` and its
`cv2.boundingRect`. -/
structure Contour where
  area : ℚ
  x : ℕ
  y : ℕ
  w : ℕ
  h : ℕ
  deriving Repr, DecidableEq

/-- `cv2.boundingRect` of a contour, as the tuple `(x, y, w, h)`. -/
def boundingRect (c : Contour) : ℕ × ℕ × ℕ × ℕ := (c.x, c.y, c.w, c.h)

/-- The contour-filtering loop of `MotionDetector.detect_motion`
(motion_detector.py lines 254-276): skip every contour whose area is
below `MIN_CONTOUR_AREA`; append the bounding rectangle of each survivor
and set `motion_detected`. -/
def scanContours : List Contour → List (ℕ × ℕ × ℕ × ℕ) × Bool
  | [] => ([], false)
  | c :: rest =>
    let (rs, md) := scanContours rest
    if c.area < MIN_CONTOUR_AREA then (rs, md)
    else (boundingRect c :: rs, true)

/-- The external inputs of one `detect_motion` tick: whether `cap.read()`
returned a frame (`readOk`), an opaque frame identifier, the contours the
cv2 pipeline yields for that frame, the tick time, two oracles marking an
exception raised inside the `try` block before (`preExn`) or after
(`postExn`) the call to `check_recording_status`, and the writer
oracles. -/
structure TickInput where
  readOk : Bool
  frame : ℕ
  contours : List Contour
  now : ℚ
  preExn : Bool
  postExn : Bool
  openOk : Bool
  writeOk : Bool
  releaseOk : Bool
  deriving Repr

/-- The quadruple `detect_motion` returns: processed frame (or `None`),
motion rectangles, motion flag, recording status. -/
abbrev TickResult : Type :=
  Option ℕ × List (ℕ × ℕ × ℕ × ℕ) × Bool × Option RecStatus

/-- The defined result value every failure path of `detect_motion`
returns: `(None, [], False, None)`. -/
def failResult : TickResult := (none, [], false, none)

/-- `MotionDetector.detect_motion` (motion_detector.py lines 222-305).
The inactive-feed guard and every exception path yield `failResult`; a
successful tick filters the contours, runs `check_recording_status` on
the motion flag, and returns the annotated frame with rectangles, flag
and status. -/
def detect_motion (s : DetectorState) (i : TickInput) :
    DetectorState × TickResult :=
  if !s.feed_active || !s.has_cap || !s.cap_opened then (s, failResult)
  else if !i.readOk then (s, failResult)
  else if i.preExn then (s, failResult)
  else
    let rm := scanContours i.contours
    let r := check_recording_status s rm.2 i.now i.openOk i.writeOk i.releaseOk
    if i.postExn then (r.1, failResult)
    else (r.1, (some i.frame, rm.1, rm.2, r.2.1))

/-- Run `check_recording_status` over a list of `(motion, time)` tick
inputs with all writer oracles succeeding, collecting the per-tick
status outputs. -/
def runStatus : DetectorState → List (Bool × ℚ) →
    DetectorState × List (Option RecStatus)
  | s, [] => (s, [])
  | s, (m, t) :: rest =>
    let r := check_recording_status s m t true true true
    let tail := runStatus r.1 rest
    (tail.1, r.2.1 :: tail.2)

/-- The mutable attributes of an `AudioAlertSystem` instance that
`trigger_alert` reads or writes.  `has_engine` is
`self.tts_engine is not None`. -/
structure AlertState where
  last_alert_time : ℚ
  has_engine : Bool
  deriving Repr, DecidableEq

/-- `AudioAlertSystem.trigger_alert` (alert_system.py lines 52-73).
`now` is `time.time()`; `speakOk` is whether `say`/`runAndWait` raised.
Returns `False` without touching state when the engine is absent, the
debounce window has not elapsed, or speaking raised; `last_alert_time`
is assigned only after a successful delivery. -/
def trigger_alert (s : AlertState) (now : ℚ) (speakOk : Bool) :
    AlertState × Bool :=
  if !s.has_engine || (now - s.last_alert_time ≤ MOTION_TIMEOUT) then
    (s, false)
  else if speakOk then
    ({ s with last_alert_time := now }, true)
  else
    (s, false)

/-- A concrete detector state with the camera running and a recording
session open (opened at time 3). -/
def openCamRecState : DetectorState :=
  { initState with
    feed_active := true
    has_cap := true
    cap_opened := true
    recording := true
    has_writer := true
    recording_start_time := 3 }

/-- A concrete detector state with a recording session open since time 0
and five frames already written. -/
def recState : DetectorState :=
  { initState with
    recording := true
    has_writer := true
    recording_start_time := 0
    frames_recorded := 5 }

/-- A concrete tick input: the read succeeds, no exception is raised,
and the cv2 pipeline yields one contour below the area threshold and one
exactly at it. -/
def tickInput0 : TickInput :=
  { readOk := true
    frame := 7
    contours := [⟨600, 1, 2, 3, 4⟩, ⟨700, 5, 6, 7, 8⟩]
    now := 100
    preExn := false
    postExn := false
    openOk := true
    writeOk := true
    releaseOk := true }

/-- `tickInput0` with the camera read failing. -/
def tickInputReadFail : TickInput :=
  { tickInput0 with readOk := false }

/-! ## Theorems -/

/-- The contour loop emits exactly the bounding rectangles of the
contours whose area reaches `MIN_CONTOUR_AREA`, and the motion flag is
set iff at least one such contour exists. -/
theorem scanContours_eq (cs : List Contour) :
    scanContours cs =
      ((cs.filter fun c => decide (MIN_CONTOUR_AREA ≤ c.area)).map boundingRect,
        cs.any fun c => decide (MIN_CONTOUR_AREA ≤ c.area)) := by
  induction cs with
  | nil => rfl
  | cons c rest ih =>
    by_cases h : c.area < MIN_CONTOUR_AREA
    · simp [scanContours, ih, List.filter_cons, List.any_cons, h, not_le.mpr h]
    · simp [scanContours, ih, List.filter_cons, List.any_cons, h, not_lt.mp h]

/-- Claim C1: the spec requires `cleanup` to finalize an open recording
session (release the video writer, clear the recording flag) and release
the camera.  The code defines `cleanup` twice; the second definition
shadows the first and only stops the camera.  Evaluated at a state with
an open session: the camera is released but the session stays open — the
recording flag stays `true` and the writer is never released. -/
theorem C1_cleanup_leaves_session_open :
    (cleanup openCamRecState).recording = true ∧
    (cleanup openCamRecState).has_writer = true ∧
    (cleanup openCamRecState).has_cap = false ∧
    (cleanup_shadowed openCamRecState true).recording = false := by
  refine ⟨rfl, rfl, rfl, rfl⟩

/-- Claim C2, counterexample: at the tick where a session's elapsed time
reaches `RECORDING_DURATION` (session opened at time 0, tick at time 10),
`check_recording_status` returns status `"recording"`, not `"stopped"`,
even though the session is closed internally during that very tick. -/
theorem C2_counterexample :
    (check_recording_status recState false 10 true true true).2.1
        = some RecStatus.recording ∧
    (check_recording_status recState false 10 true true true).2.1
        ≠ some RecStatus.stopped ∧
    (check_recording_status recState false 10 true true true).1.recording
        = false := by
  refine ⟨?_, ?_, ?_⟩
  · norm_num [check_recording_status, recState, initState, write_frame,
      stop_recording, RECORDING_DURATION]
  · norm_num [check_recording_status, recState, initState, write_frame,
      stop_recording, RECORDING_DURATION]
    decide
  · norm_num [check_recording_status, recState, initState, write_frame,
      stop_recording, RECORDING_DURATION]

/-- Claim C2 as amended: the tick that opens a session reports
`"started"` and writes no frame (the counter is reset to 0); every tick
on which a session is open at entry reports `"recording"` and writes
exactly one frame, and the session is closed internally during that tick
iff its elapsed time has reached `RECORDING_DURATION` — so the `"stopped"`
status is never emitted on duration expiry, and the final frame count
equals the number of `"recording"` ticks, excluding the `"started"`
tick. -/
theorem C2_amended :
    (∀ (s : DetectorState) (now : ℚ),
      s.recording = false → s.recording_enabled = true →
      now - s.last_motion_time ≥ s.motion_cooldown →
      (check_recording_status s true now true true true).2.1
          = some RecStatus.started ∧
      (check_recording_status s true now true true true).1.frames_recorded = 0 ∧
      (check_recording_status s true now true true true).1.recording = true) ∧
    (∀ (s : DetectorState) (now : ℚ) (motion : Bool),
      s.recording = true → s.has_writer = true → s.recording_enabled = true →
      (check_recording_status s motion now true true true).2.1
          = some RecStatus.recording ∧
      (check_recording_status s motion now true true true).1.frames_recorded
          = s.frames_recorded + 1 ∧
      ((check_recording_status s motion now true true true).1.recording = false
          ↔ now - s.recording_start_time ≥ RECORDING_DURATION)) := by
  constructor
  · intro s now hrec hen hcd
    simp [check_recording_status, start_recording, hrec, hen, hcd]
  · intro s now motion hrec hw hen
    have hmot : (motion && !s.recording) = false := by simp [hrec]
    by_cases hdur : now - s.recording_start_time ≥ RECORDING_DURATION
    · simp [check_recording_status, hmot, hrec, hen, write_frame, hw,
        stop_recording, hdur]
      cases motion <;> simp
    · simp [check_recording_status, hmot, hrec, hen, write_frame, hw,
        stop_recording, hdur]
      cases motion <;> simp

/-- Witness for the amended C2: from the initial state, motion at time 5
yields `"started"`; and the expiry tick on `recState` (5 frames written,
opened at 0, tick at 10) writes its sixth frame while reporting
`"recording"`. -/
theorem C2_amended_witness :
    (check_recording_status initState true 5 true true true).2.1
        = some RecStatus.started ∧
    (check_recording_status recState false 10 true true true).1.frames_recorded
        = 6 := by
  have h1 := (C2_amended.1 initState 5 rfl rfl
    (by norm_num [initState, MOTION_COOLDOWN])).1
  have h2 := (C2_amended.2 recState 10 false rfl rfl rfl).2.1
  exact ⟨h1, by rw [h2]; norm_num [recState, initState]⟩

/-- Claim C3: for an open session, the forced stop driven by duration
expiry happens on exactly the first frame write whose elapsed time since
`recording_start_time` has reached `RECORDING_DURATION` — the session is
closed on that tick and stays open on every earlier tick — and this holds
for both values of the motion flag. -/
theorem C3_forced_stop_iff_expired (s : DetectorState) (now : ℚ)
    (motion : Bool)
    (hrec : s.recording = true) (hw : s.has_writer = true)
    (hen : s.recording_enabled = true) :
    ((check_recording_status s motion now true true true).1.recording = false
      ↔ now - s.recording_start_time ≥ RECORDING_DURATION) ∧
    (check_recording_status s motion now true true true).1.recording_start_time
      = s.recording_start_time := by
  have hmot : (motion && !s.recording) = false := by simp [hrec]
  by_cases hdur : now - s.recording_start_time ≥ RECORDING_DURATION <;>
    · simp [check_recording_status, hmot, hrec, hen, write_frame, hw,
        stop_recording, hdur]
      cases motion <;> simp [hdur]

/-- Witness for C3: a session opened at time 0 with the tick at time 10
(= `RECORDING_DURATION`) is closed by that tick. -/
theorem C3_forced_stop_iff_expired_witness :
    (check_recording_status recState true 10 true true true).1.recording
      = false := by
  have h := (C3_forced_stop_iff_expired recState 10 true rfl rfl rfl).1
  rw [h]
  norm_num [recState, initState, RECORDING_DURATION]

/-- Any single `check_recording_status` call made while
`recording_enabled` is false leaves the recording flag false, keeps
recording disabled, and reports either `"stopped"` (exactly when a
session was open at entry) or no status. -/
theorem check_disabled_step (s : DetectorState) (m : Bool) (now : ℚ)
    (oOk wOk rOk : Bool)
    (hen : s.recording_enabled = false)
    (hinv : s.recording = true → s.has_writer = true) :
    (check_recording_status s m now oOk wOk rOk).1.recording = false ∧
    (check_recording_status s m now oOk wOk rOk).1.recording_enabled = false ∧
    (s.recording = true →
      (check_recording_status s m now oOk wOk rOk).2.1
        = some RecStatus.stopped) ∧
    (s.recording = false →
      (check_recording_status s m now oOk wOk rOk).1 = s ∧
      (check_recording_status s m now oOk wOk rOk).2.1 = none) := by
  by_cases hrec : s.recording = true
  · have hw := hinv hrec
    cases rOk <;> simp [check_recording_status, stop_recording, hen, hrec, hw]
  · simp only [Bool.not_eq_true] at hrec
    simp [check_recording_status, hen, hrec]

/-- Claim C4: while `recording_enabled` is false, a call made with a
session open force-stops it and reports `"stopped"`; and over any
sequence of calls the machine never reports `"started"` or
`"recording"`, and it is not in the recording state after any nonempty
sequence — it never enters `Recording`, whatever the motion inputs. -/
theorem C4_disabled_never_records (s : DetectorState)
    (hen : s.recording_enabled = false)
    (hinv : s.recording = true → s.has_writer = true) :
    (∀ (m : Bool) (now : ℚ) (oOk wOk rOk : Bool), s.recording = true →
      (check_recording_status s m now oOk wOk rOk).2.1
          = some RecStatus.stopped ∧
      (check_recording_status s m now oOk wOk rOk).1.recording = false) ∧
    (∀ l : List (Bool × ℚ),
      (∀ o ∈ (runStatus s l).2,
        o ≠ some RecStatus.started ∧ o ≠ some RecStatus.recording) ∧
      (l ≠ [] → (runStatus s l).1.recording = false)) := by
  constructor
  · intro m now oOk wOk rOk hrec
    exact ⟨(check_disabled_step s m now oOk wOk rOk hen hinv).2.2.1 hrec,
      (check_disabled_step s m now oOk wOk rOk hen hinv).1⟩
  · intro l
    induction l generalizing s with
    | nil => simp [runStatus]
    | cons p rest ih =>
      obtain ⟨h1, h2, h3, h4⟩ :=
        check_disabled_step s p.1 p.2 true true true hen hinv
      have hinv1 : (check_recording_status s p.1 p.2 true true true).1.recording
          = true → (check_recording_status s p.1 p.2 true true true).1.has_writer
          = true := by
        intro hc; rw [h1] at hc; exact absurd hc (by simp)
      obtain ⟨ihA, ihB⟩ := ih _ h2 hinv1
      refine ⟨?_, ?_⟩
      · intro o ho
        simp only [runStatus, List.mem_cons] at ho
        rcases ho with ho | ho
        · subst ho
          by_cases hrec : s.recording = true
          · rw [h3 hrec]; exact ⟨by simp, by simp⟩
          · simp only [Bool.not_eq_true] at hrec
            rw [(h4 hrec).2]; exact ⟨by simp, by simp⟩
        · exact ihA o ho
      · intro _
        cases rest with
        | nil => simpa [runStatus] using h1
        | cons q qs =>
          simpa [runStatus] using ihB (by simp)

/-- Witness for C4: with recording disabled and a session open since
time 0, the first call reports `"stopped"`, and running the two-tick
motion trace `[(true, 5), (true, 9)]` never reports `"started"` or
`"recording"`. -/
theorem C4_disabled_never_records_witness :
    (check_recording_status { recState with recording_enabled := false }
        true 5 true true true).2.1 = some RecStatus.stopped ∧
    (∀ o ∈ (runStatus { recState with recording_enabled := false }
        [(true, 5), (true, 9)]).2,
      o ≠ some RecStatus.started ∧ o ≠ some RecStatus.recording) := by
  have h := C4_disabled_never_records
    { recState with recording_enabled := false } rfl (fun _ => rfl)
  exact ⟨(h.1 true 5 true true true rfl).1, (h.2 [(true, 5), (true, 9)]).1⟩

/-- When the engine is present, delivery succeeds and the debounce
window has elapsed, `trigger_alert` fires: it returns `True` and stamps
`last_alert_time` with the call time. -/
theorem trigger_alert_fire (s : AlertState) (now : ℚ)
    (he : s.has_engine = true)
    (h : MOTION_TIMEOUT < now - s.last_alert_time) :
    trigger_alert s now true = ({ s with last_alert_time := now }, true) := by
  simp [trigger_alert, he, not_le.mpr h]

/-- When the debounce window has not elapsed, `trigger_alert` returns
`False` and leaves the state untouched, whatever the delivery oracle. -/
theorem trigger_alert_hold (s : AlertState) (now : ℚ) (speakOk : Bool)
    (h : now - s.last_alert_time ≤ MOTION_TIMEOUT) :
    trigger_alert s now speakOk = (s, false) := by
  simp [trigger_alert, h]

/-- Claim C5: with the TTS engine present and delivery succeeding, the
alert gate fires and returns true iff the elapsed time since the last
successful fire strictly exceeds `MOTION_TIMEOUT`; on firing it sets
`last_alert_time` to the call time; hence of two calls spaced less than
the timeout apart only the first fires, while a second call exactly
`MOTION_TIMEOUT + ε` later (any `ε > 0`) fires again. -/
theorem C5_alert_gate_debounce (s : AlertState) (now : ℚ)
    (he : s.has_engine = true) :
    ((trigger_alert s now true).2 = true
        ↔ now - s.last_alert_time > MOTION_TIMEOUT) ∧
    ((trigger_alert s now true).2 = true →
      (trigger_alert s now true).1.last_alert_time = now) ∧
    (∀ d : ℚ, 0 ≤ d → d < MOTION_TIMEOUT →
      (trigger_alert s now true).2 = true →
      (trigger_alert (trigger_alert s now true).1 (now + d) true).2 = false) ∧
    (∀ ε : ℚ, 0 < ε →
      (trigger_alert s now true).2 = true →
      (trigger_alert (trigger_alert s now true).1
        (now + MOTION_TIMEOUT + ε) true).2 = true) := by
  by_cases hfire : now - s.last_alert_time > MOTION_TIMEOUT
  · have hfireEq := trigger_alert_fire s now he hfire
    refine ⟨?_, ?_, ?_, ?_⟩
    · rw [hfireEq]; simpa using hfire
    · intro _; rw [hfireEq]
    · intro d hd0 hdlt _
      rw [hfireEq]
      rw [trigger_alert_hold ({ s with last_alert_time := now })
        (now + d) true (by simp; linarith)]
    · intro ε hε _
      rw [hfireEq]
      rw [trigger_alert_fire ({ s with last_alert_time := now })
        (now + MOTION_TIMEOUT + ε) (by simpa using he) (by simp; linarith)]
  · have hfire' : now - s.last_alert_time ≤ MOTION_TIMEOUT := not_lt.mp hfire
    have hholdEq := trigger_alert_hold s now true hfire'
    refine ⟨?_, ?_, ?_, ?_⟩
    · rw [hholdEq]; simpa using hfire
    · intro h; rw [hholdEq] at h; exact absurd h (by simp)
    · intro d _ _ h; rw [hholdEq] at h; exact absurd h (by simp)
    · intro ε _ h; rw [hholdEq] at h; exact absurd h (by simp)

/-- Witness for C5: from the initial gate state (last fire at 0), a call
at time 11 fires, a second call 5 seconds later does not, and a second
call 10.5 seconds later does. -/
theorem C5_alert_gate_debounce_witness :
    (trigger_alert ⟨0, true⟩ 11 true).2 = true ∧
    (trigger_alert (trigger_alert ⟨0, true⟩ 11 true).1 (11 + 5) true).2
        = false ∧
    (trigger_alert (trigger_alert ⟨0, true⟩ 11 true).1
        (11 + MOTION_TIMEOUT + 1/2) true).2 = true := by
  have h := C5_alert_gate_debounce ⟨0, true⟩ 11 rfl
  have hf : (trigger_alert (⟨0, true⟩ : AlertState) 11 true).2 = true :=
    h.1.mpr (by norm_num [MOTION_TIMEOUT])
  refine ⟨hf, ?_, ?_⟩
  · exact h.2.2.1 5 (by norm_num) (by norm_num [MOTION_TIMEOUT]) hf
  · exact h.2.2.2 (1/2) (by norm_num) hf

/-- Claim C6: on a successful tick, the motion rectangles returned by
`detect_motion` are exactly the bounding rectangles of the contours whose
area reaches `MIN_CONTOUR_AREA` — no region below the threshold is
emitted — and the motion flag is true iff at least one such contour
exists. -/
theorem C6_min_area_filter (s : DetectorState) (i : TickInput)
    (hfeed : s.feed_active = true) (hcap : s.has_cap = true)
    (hopen : s.cap_opened = true) (hread : i.readOk = true)
    (hpre : i.preExn = false) (hpost : i.postExn = false) :
    (detect_motion s i).2.2.1
        = (i.contours.filter fun c =>
            decide (MIN_CONTOUR_AREA ≤ c.area)).map boundingRect ∧
    ((detect_motion s i).2.2.2.1 = true
        ↔ ∃ c ∈ i.contours, MIN_CONTOUR_AREA ≤ c.area) := by
  constructor <;>
    simp [detect_motion, hfeed, hcap, hopen, hread, hpre, hpost,
      scanContours_eq]

/-- Witness for C6: on `tickInput0` (contour areas 600 and 700 with
threshold 700) only the second contour's rectangle is emitted and the
motion flag is set. -/
theorem C6_min_area_filter_witness :
    (detect_motion openCamRecState tickInput0).2.2.1 = [(5, 6, 7, 8)] ∧
    (detect_motion openCamRecState tickInput0).2.2.2.1 = true := by
  have h := C6_min_area_filter openCamRecState tickInput0
    rfl rfl rfl rfl rfl rfl
  constructor
  · rw [h.1]
    norm_num [tickInput0, boundingRect, List.filter, MIN_CONTOUR_AREA]
  · exact h.2.mpr ⟨⟨700, 5, 6, 7, 8⟩, by simp [tickInput0],
      by norm_num [MIN_CONTOUR_AREA]⟩

/-- Claim C7: when motion is detected while idle, the cooldown has
elapsed and recording is enabled, but the session open fails (the
`VideoWriter` constructor raises), the transition is aborted: afterwards
the recording flag is false and the writer is absent, and the same call
reports no status and no path. -/
theorem C7_failed_open_aborts (s : DetectorState) (now : ℚ)
    (wOk rOk : Bool)
    (hrec : s.recording = false) (hen : s.recording_enabled = true)
    (hcd : now - s.last_motion_time ≥ s.motion_cooldown) :
    (check_recording_status s true now false wOk rOk).1.recording = false ∧
    (check_recording_status s true now false wOk rOk).1.has_writer = false ∧
    (check_recording_status s true now false wOk rOk).2.1 = none ∧
    (check_recording_status s true now false wOk rOk).2.2 = none := by
  refine ⟨?_, ?_, ?_, ?_⟩ <;>
    simp [check_recording_status, start_recording, hrec, hen, hcd]

/-- Witness for C7: from the initial state with the first motion at time
5, a failed open leaves the machine idle and the tick reports no
session. -/
theorem C7_failed_open_aborts_witness :
    (check_recording_status initState true 5 false true true).1.recording
        = false ∧
    (check_recording_status initState true 5 false true true).2.1 = none := by
  have h := C7_failed_open_aborts initState 5 true true rfl rfl
    (by norm_num [initState, MOTION_COOLDOWN])
  exact ⟨h.1, h.2.2.1⟩

/-- Claim C8: every failure path of `detect_motion` — feed inactive,
capture handle absent or not opened, frame read failing, or an exception
raised before or after the recording-status step — returns the defined
value `(None, [], False, None)` instead of propagating. -/
theorem C8_tick_default_on_failure (s : DetectorState) (i : TickInput)
    (h : s.feed_active = false ∨ s.has_cap = false ∨ s.cap_opened = false ∨
      i.readOk = false ∨ i.preExn = true ∨ i.postExn = true) :
    (detect_motion s i).2 = failResult := by
  by_cases hA : (!s.feed_active || !s.has_cap || !s.cap_opened) = true
  · simp [detect_motion, hA]
  · by_cases hB : i.readOk = true
    · by_cases hC : i.preExn = true
      · simp [detect_motion, hA, hB, hC]
      · have hpost : i.postExn = true := by
          rcases h with h | h | h | h | h | h
          · exact absurd (by simp [h] :
              (!s.feed_active || !s.has_cap || !s.cap_opened) = true) hA
          · exact absurd (by simp [h] :
              (!s.feed_active || !s.has_cap || !s.cap_opened) = true) hA
          · exact absurd (by simp [h] :
              (!s.feed_active || !s.has_cap || !s.cap_opened) = true) hA
          · exact absurd hB (by simp [h])
          · exact absurd h hC
          · exact h
        simp [detect_motion, hA, hB, hC, hpost]
    · simp [detect_motion, hA, hB]

/-- Witness for C8: a tick whose camera read fails returns the defined
failure value. -/
theorem C8_tick_default_on_failure_witness :
    (detect_motion openCamRecState tickInputReadFail).2 = failResult :=
  C8_tick_default_on_failure openCamRecState tickInputReadFail
    (Or.inr (Or.inr (Or.inr (Or.inl rfl))))

/-- Claim C9: when a session start is attempted at time `now` (motion
while idle, cooldown elapsed, recording enabled) and the open fails,
`last_motion_time` has nevertheless been set to `now`; consequently a
later call at any time `t2` within a cooldown interval of the failed
attempt starts nothing, changes nothing and reports no status. -/
theorem C9_failed_open_consumes_cooldown (s : DetectorState)
    (now t2 : ℚ) (wOk rOk oOk2 wOk2 rOk2 : Bool)
    (hrec : s.recording = false) (hen : s.recording_enabled = true)
    (hcd : now - s.last_motion_time ≥ s.motion_cooldown)
    (hlt : t2 - now < s.motion_cooldown) :
    (check_recording_status s true now false wOk rOk).1.last_motion_time
        = now ∧
    (check_recording_status s true now false wOk rOk).1.recording = false ∧
    (check_recording_status
        (check_recording_status s true now false wOk rOk).1 true t2
        oOk2 wOk2 rOk2).2.1 = none ∧
    (check_recording_status
        (check_recording_status s true now false wOk rOk).1 true t2
        oOk2 wOk2 rOk2).1
      = (check_recording_status s true now false wOk rOk).1 := by
  have hlt' : ¬ (t2 - now ≥ s.motion_cooldown) := not_le.mpr hlt
  refine ⟨?_, ?_, ?_, ?_⟩ <;>
    simp [check_recording_status, start_recording, hrec, hen, hcd, hlt']

/-- Witness for C9: a failed open at time 5 stamps the motion time, and
a retry at time 6 (within the 2-second cooldown) starts nothing. -/
theorem C9_failed_open_consumes_cooldown_witness :
    (check_recording_status initState true 5 false true true).1.last_motion_time
        = 5 ∧
    (check_recording_status
        (check_recording_status initState true 5 false true true).1 true 6
        true true true).2.1 = none := by
  have h := C9_failed_open_consumes_cooldown initState 5 6
    true true true true true rfl rfl
    (by norm_num [initState, MOTION_COOLDOWN])
    (by norm_num [initState, MOTION_COOLDOWN])
  exact ⟨h.1, h.2.2.1⟩

/-- Claim C10: if the TTS delivery inside `trigger_alert` raises, the
call returns false and `last_alert_time` is unchanged (the whole state is
unchanged), so a later call whose elapsed time still exceeds the timeout
fires. -/
theorem C10_failed_delivery_preserves_state (s : AlertState) (now t2 : ℚ)
    (he : s.has_engine = true)
    (hgt : now - s.last_alert_time > MOTION_TIMEOUT)
    (hgt2 : t2 - s.last_alert_time > MOTION_TIMEOUT) :
    (trigger_alert s now false).2 = false ∧
    (trigger_alert s now false).1 = s ∧
    (trigger_alert (trigger_alert s now false).1 t2 true).2 = true := by
  have h1 : trigger_alert s now false = (s, false) := by
    simp [trigger_alert, he, not_le.mpr hgt]
  refine ⟨by rw [h1], by rw [h1], ?_⟩
  rw [h1]
  rw [trigger_alert_fire s t2 he hgt2]

/-- Witness for C10: from the initial gate state, a delivery failure at
time 11 leaves the state unchanged and a retry at time 12 fires. -/
theorem C10_failed_delivery_preserves_state_witness :
    (trigger_alert ⟨0, true⟩ 11 false).2 = false ∧
    (trigger_alert (trigger_alert ⟨0, true⟩ 11 false).1 12 true).2 = true := by
  have h := C10_failed_delivery_preserves_state ⟨0, true⟩ 11 12 rfl
    (by norm_num [MOTION_TIMEOUT]) (by norm_num [MOTION_TIMEOUT])
  exact ⟨h.1, h.2.2⟩

end Sentinel
